import Mathlib

/-!
# CastToTV media hub — verification of the core

A shallow embedding of the state-bearing core of the CastToTV extension:

* `src/content/mediaTracker.js` — the per-page Agent: command handlers
  (`toggle-play`, `seek-relative`, `seek-absolute`, the `seekTo` clamp),
  the `chrome.runtime.onMessage` command listener, and the active-element
  arbitration / update-scheduling machinery (`flushUpdate`,
  `scheduleUpdate`, `setActiveElement`, `registerElement`,
  `unregisterElement`, the per-element event listener and the
  `requestAnimationFrame` callback).
* `src/background.js` — the coordinator: the session registry
  (`serializeSessions`, the `chrome.tabs.onRemoved` eviction listener,
  `dispatchMediaCommand`).

JavaScript numbers are modelled as `JSNum` (a finite rational or one of
`NaN`, `±Infinity`); JavaScript `Map`s are modelled as association lists
(for key-addressed stores) or characteristic functions (for the set of
pending animation-frame handles).  Asynchronous effects are modelled by
making the outcome of the host's `play()` promise an explicit parameter
and by treating each event-loop task as one atomic step, which matches
the single-threaded cooperative scheduling of the source.
-/

/-- A JavaScript number as far as the tracker inspects it: either a finite
rational value or one of the non-finite values `NaN`, `+Infinity`,
`-Infinity`.  `Number.isFinite` holds exactly on `fin`. -/
inductive JSNum where
  | nan
  | posInf
  | negInf
  | fin (val : ℚ)
deriving DecidableEq, Repr

/-- `Number.isFinite`. -/
def JSNum.isFinite : JSNum → Bool
  | .fin _ => true
  | _ => false

/-- The slice of an `HTMLMediaElement`'s state that the content script's
command handlers read and write. -/
structure MediaElement where
  paused : Bool
  ended : Bool
  currentTime : ℚ
  duration : JSNum
deriving DecidableEq, Repr

/-- `MESSAGE_TYPES.MEDIA_COMMAND` from `utils/messageTypes.js`. -/
def MEDIA_COMMAND : String := "MEDIA_COMMAND"

/-- `MEDIA_COMMANDS.TOGGLE_PLAY`. -/
def TOGGLE_PLAY : String := "toggle-play"

/-- `MEDIA_COMMANDS.SEEK_RELATIVE`. -/
def SEEK_RELATIVE : String := "seek-relative"

/-- `MEDIA_COMMANDS.SEEK_ABSOLUTE`. -/
def SEEK_ABSOLUTE : String := "seek-absolute"

/-- The duration test shared by `serializeElement` and `seekTo`:
`Number.isFinite(element.duration) && element.duration > 0 ? element.duration : null`. -/
def knownDuration (duration : JSNum) : Option ℚ :=
  match duration with
  | .fin d => if 0 < d then some d else none
  | _ => none

/-- `seekTo` from mediaTracker.js: clamp the target time to `[0, duration]`
when the duration is a known finite positive number, otherwise only floor
the target at `0`, then assign `element.currentTime`. -/
def seekTo (element : MediaElement) (targetTime : ℚ) : MediaElement :=
  match knownDuration element.duration with
  | some duration => { element with currentTime := min (max 0 targetTime) duration }
  | none =>
      if targetTime < 0 then { element with currentTime := 0 }
      else { element with currentTime := targetTime }

/-- Outcome of the host environment's asynchronous `element.play()` call:
the returned promise either resolves (playback starts) or rejects (for
example an autoplay-policy denial).  The model takes this outcome as an
explicit parameter. -/
inductive PlayOutcome where
  | resolved
  | rejected (message : String)
deriving DecidableEq, Repr

/-- `commandHandlers[MEDIA_COMMANDS.TOGGLE_PLAY]` from mediaTracker.js.
If the element is paused or ended it calls `element.play()` once; the
inline `.catch(() => { })` swallows a rejected attempt, so the async
handler's own promise always resolves and no retry happens.  Otherwise it
pauses synchronously.  The host `play()` is modelled as clearing
`paused`/`ended` on success and leaving the element unchanged on
rejection; the second component counts `element.play()` invocations. -/
def togglePlayHandler (element : MediaElement) (playOutcome : PlayOutcome) :
    MediaElement × Nat :=
  if element.paused || element.ended then
    match playOutcome with
    | .resolved => ({ element with paused := false, ended := false }, 1)
    | .rejected _ => (element, 1)
  else
    ({ element with paused := true }, 0)

/-- `commandHandlers[MEDIA_COMMANDS.SEEK_RELATIVE]`: ignore a non-finite
`delta`, otherwise seek to `currentTime + delta` through the clamp. -/
def seekRelativeHandler (element : MediaElement) (delta : JSNum) : MediaElement :=
  match delta with
  | .fin d => seekTo element (element.currentTime + d)
  | _ => element

/-- `commandHandlers[MEDIA_COMMANDS.SEEK_ABSOLUTE]`: ignore a non-finite
`time`, otherwise seek to `time` through the clamp. -/
def seekAbsoluteHandler (element : MediaElement) (time : JSNum) : MediaElement :=
  match time with
  | .fin t => seekTo element t
  | _ => element

/-- The `{ok, error}` object passed to `sendResponse`. -/
structure Ack where
  ok : Bool
  error : Option String
deriving DecidableEq, Repr

/-- An inbound `MEDIA_COMMAND` message as received by the content script's
`chrome.runtime.onMessage` listener.  A field the sender omitted is
`none`; the handlers' destructuring defaults (`delta = 0`, `time = 0`)
are applied at the use site. -/
structure CommandMessage where
  type : String
  elementId : String
  command : String
  delta : Option JSNum
  time : Option JSNum
deriving DecidableEq, Repr

/-- Everything observable about one run of the command listener: the
tracked-element map afterwards, the ack passed to `sendResponse` (if
any), whether `finalize` triggered an immediate `scheduleUpdate`, and how
many times `element.play()` was invoked. -/
structure ListenerResult where
  tracked : List (String × MediaElement)
  response : Option Ack
  flushed : Bool
  playAttempts : Nat
deriving DecidableEq, Repr

/-- In-place mutation of the element object held in `trackedElements`:
replace the binding of `key` (the first one, and in the source the only
one) by the new element state. -/
def updateTracked : List (String × MediaElement) → String → MediaElement →
    List (String × MediaElement)
  | [], _, _ => []
  | (k, v) :: rest, key, newV =>
      if k = key then (k, newV) :: rest
      else (k, v) :: updateTracked rest key newV

/-- `commandHandlers` is a plain object literal, so the lookup
`commandHandlers[command]` traverses `Object.prototype` when `command` is
not one of the three own keys.  These are the inherited property names
whose value is a function that, invoked as
`commandHandlers[command](tracked.element, message)`, returns a
non-thenable value without throwing — so the `!commandHandlers[command]`
guard is not taken and the listener proceeds to `finalize(true)`. -/
def objectPrototypeCallable : List String :=
  ["constructor", "hasOwnProperty", "isPrototypeOf", "propertyIsEnumerable",
   "toLocaleString", "toString", "valueOf", "__lookupGetter__", "__lookupSetter__"]

/-- The inherited `Object.prototype` names whose lookup is truthy (so the
guard is again not taken) but whose invocation with
`(tracked.element, message)` throws a `TypeError`: `__proto__` yields the
non-callable `Object.prototype` object, and the two definer methods
require a callable second argument.  The exception escapes the listener
before `sendResponse` and before the completion flush. -/
def objectPrototypeThrowing : List String :=
  ["__proto__", "__defineGetter__", "__defineSetter__"]

/-- The `chrome.runtime.onMessage` listener of mediaTracker.js.  Messages
of another type are ignored without a response.  The guard
`!tracked || !commandHandlers[command]` acknowledges an unknown
`elementId`, or a command whose lookup finds nothing even on
`Object.prototype`, with `{ok: false, error: 'unknown-element'}` and no
side effect.  Because the lookup traverses `Object.prototype`, a command
naming an inherited member escapes that guard: a callable member is
invoked (no media side effect), returns a non-thenable, and is finalized
with `{ok: true}` plus an immediate flush, while `__proto__` and the
definer methods throw before any response or flush.  An executed own
handler is finalized with `sendResponse` followed by an immediate
`scheduleUpdate`; the `toggle-play` handler's promise always resolves
(its only rejection source is caught inline), so `finalize` runs with
`ok = true` on every executed path and the listener's `.catch` branch
(`finalize(false, err)`) is dead code on these paths. -/
def onCommandMessage (tracked : List (String × MediaElement))
    (message : CommandMessage) (playOutcome : PlayOutcome) : ListenerResult :=
  if message.type ≠ MEDIA_COMMAND then
    { tracked := tracked, response := none, flushed := false, playAttempts := 0 }
  else
    match tracked.find? (fun p => p.1 == message.elementId) with
    | none =>
        { tracked := tracked, response := some { ok := false, error := some "unknown-element" },
          flushed := false, playAttempts := 0 }
    | some (_, element) =>
        if message.command = TOGGLE_PLAY then
          let step := togglePlayHandler element playOutcome
          { tracked := updateTracked tracked message.elementId step.1,
            response := some { ok := true, error := none },
            flushed := true, playAttempts := step.2 }
        else if message.command = SEEK_RELATIVE then
          let element' := seekRelativeHandler element ((message.delta).getD (.fin 0))
          { tracked := updateTracked tracked message.elementId element',
            response := some { ok := true, error := none },
            flushed := true, playAttempts := 0 }
        else if message.command = SEEK_ABSOLUTE then
          let element' := seekAbsoluteHandler element ((message.time).getD (.fin 0))
          { tracked := updateTracked tracked message.elementId element',
            response := some { ok := true, error := none },
            flushed := true, playAttempts := 0 }
        else if message.command ∈ objectPrototypeCallable then
          { tracked := tracked, response := some { ok := true, error := none },
            flushed := true, playAttempts := 0 }
        else if message.command ∈ objectPrototypeThrowing then
          { tracked := tracked, response := none, flushed := false, playAttempts := 0 }
        else
          { tracked := tracked, response := some { ok := false, error := some "unknown-element" },
            flushed := false, playAttempts := 0 }

/-! ## The Agent's arbitration and update-scheduling state machine -/

/-- A fire-and-forget message from the Agent to the Registry:
`MEDIA_UPDATE` carrying the serialized state of the element with the given
id, or `MEDIA_REMOVED` for that id.  Only the identity matters for the
arbitration properties, so the payload body is elided. -/
inductive AgentMsg where
  | update (elementId : String)
  | removed (elementId : String)
deriving DecidableEq, Repr

/-- The tracker's module-level mutable state: the key set of
`trackedElements`, the key set of `pendingUpdates` (as a characteristic
function, since only `has`/`set`/`delete` are used), and `activeMediaId`. -/
structure AgentState where
  tracked : List String
  pending : String → Bool
  activeMediaId : Option String

/-- `pendingUpdates.set(id, rafId)` / `pendingUpdates.delete(id)`. -/
def setPending (s : AgentState) (elementId : String) (b : Bool) : AgentState :=
  { s with pending := fun x => if x = elementId then b else s.pending x }

/-- `flushUpdate`: serialize and send a `MEDIA_UPDATE` — but only when the
element is the current active one (the reporting gate). -/
def flushUpdate (s : AgentState) (elementId : String) : List AgentMsg :=
  if s.activeMediaId = some elementId then [AgentMsg.update elementId] else []

/-- `scheduleUpdate`: in immediate mode cancel any pending deferred flush
for the element and flush synchronously; in deferred mode schedule at
most one animation-frame flush per element (a second deferred request
while one is pending is a no-op). -/
def scheduleUpdate (s : AgentState) (elementId : String) (immediate : Bool) :
    AgentState × List AgentMsg :=
  if immediate then
    let s1 := setPending s elementId false
    (s1, flushUpdate s1 elementId)
  else if s.pending elementId then
    (s, [])
  else
    (setPending s elementId true, [])

/-- `setActiveElement`: no-op if the element is already active; otherwise
cancel the outgoing active element's pending flush, emit `MEDIA_REMOVED`
for it, install the new active id, and immediately flush the new
element's state. -/
def setActiveElement (s : AgentState) (newId : String) : AgentState × List AgentMsg :=
  if s.activeMediaId = some newId then
    (s, [])
  else
    let cleaned :=
      match s.activeMediaId with
      | some oldId => (setPending s oldId false, [AgentMsg.removed oldId])
      | none => (s, [])
    let s2 := { cleaned.1 with activeMediaId := some newId }
    let flushed := scheduleUpdate s2 newId true
    (flushed.1, cleaned.2 ++ flushed.2)

/-- `registerElement` (arbitration part): ignore an already-tracked id,
otherwise start tracking it and make it active when either no element is
active yet or the new element is playing (`!paused && !ended`). -/
def registerElement (s : AgentState) (elementId : String) (playing : Bool) :
    AgentState × List AgentMsg :=
  if elementId ∈ s.tracked then
    (s, [])
  else
    let s1 := { s with tracked := elementId :: s.tracked }
    if s1.activeMediaId.isNone || playing then setActiveElement s1 elementId
    else (s1, [])

/-- `unregisterElement`: drop the element from tracking, cancel its pending
flush, and — when it was the active element — clear the active slot and
emit `MEDIA_REMOVED`. -/
def unregisterElement (s : AgentState) (elementId : String) : AgentState × List AgentMsg :=
  if elementId ∈ s.tracked then
    let s1 := setPending { s with tracked := s.tracked.erase elementId } elementId false
    if s1.activeMediaId = some elementId then
      ({ s1 with activeMediaId := none }, [AgentMsg.removed elementId])
    else
      (s1, [])
  else
    (s, [])

/-- `MEDIA_EVENTS` from mediaTracker.js: the event types the per-element
listener is attached for. -/
def MEDIA_EVENTS : List String :=
  ["play", "pause", "timeupdate", "durationchange", "volumechange",
   "ratechange", "ended", "loadeddata", "loadedmetadata", "seeked",
   "enterpictureinpicture", "leavepictureinpicture"]

/-- The per-element event listener installed by `registerElement`: a
`play` event makes the element active (preempting the previous active
element), then the event is flushed — immediately for every type except
the high-frequency `timeupdate`, which is deferred. -/
def mediaListener (s : AgentState) (elementId : String) (etype : String) :
    AgentState × List AgentMsg :=
  let afterPlay :=
    if etype = "play" then setActiveElement s elementId else (s, [])
  let scheduled := scheduleUpdate afterPlay.1 elementId (decide (etype ≠ "timeupdate"))
  (scheduled.1, afterPlay.2 ++ scheduled.2)

/-- The `requestAnimationFrame` callback registered by a deferred
`scheduleUpdate`: when the element's flush is still pending, clear the
pending entry and flush. -/
def frameFire (s : AgentState) (elementId : String) : AgentState × List AgentMsg :=
  if s.pending elementId then
    let s1 := setPending s elementId false
    (s1, flushUpdate s1 elementId)
  else
    (s, [])

/-- One event-loop task hitting the tracker.  `media` models a DOM media
event reaching the listener (which exists only for tracked elements and
only for the types in `MEDIA_EVENTS`); `frame` models the animation-frame
boundary firing the element's pending callback; `register` / `domRemoved`
model the initial scan or `MutationObserver` discovering an added or
removed media element. -/
inductive AgentEvent where
  | register (elementId : String) (playing : Bool)
  | media (elementId : String) (etype : String)
  | frame (elementId : String)
  | domRemoved (elementId : String)

/-- Dispatch one event-loop task to the tracker. -/
def agentStep (s : AgentState) : AgentEvent → AgentState × List AgentMsg
  | .register elementId playing => registerElement s elementId playing
  | .media elementId etype =>
      if elementId ∈ s.tracked ∧ etype ∈ MEDIA_EVENTS then mediaListener s elementId etype
      else (s, [])
  | .frame elementId => frameFire s elementId
  | .domRemoved elementId => unregisterElement s elementId

/-- Run a sequence of event-loop tasks, concatenating the outbound
message stream. -/
def agentRun : AgentState → List AgentEvent → AgentState × List AgentMsg
  | s, [] => (s, [])
  | s, e :: rest =>
      let step := agentStep s e
      let next := agentRun step.1 rest
      (next.1, step.2 ++ next.2)

/-! ## The Registry (background service worker) -/

/-- A record of the `mediaSessions` map in background.js.  Only the fields
the coordinator logic itself inspects are modelled (`tabId` for eviction,
`sessionId`/`elementId` for command routing, `isPlaying`/`lastUpdated`
for the snapshot ordering); the presentation metadata carried along in
the payload is never read by this logic and is elided. -/
structure Session where
  sessionId : String
  tabId : Nat
  elementId : String
  isPlaying : Bool
  lastUpdated : Nat
deriving DecidableEq, Repr

/-- The sort comparator of `serializeSessions`, expressed as the relation
"`compare(a, b) ≤ 0`": playing sessions first (`isPlaying` descending),
then `lastUpdated` descending (the source returns
`b.lastUpdated - a.lastUpdated`, which is `≤ 0` exactly when
`b.lastUpdated ≤ a.lastUpdated`). -/
def sessionLE (a b : Session) : Bool :=
  if a.isPlaying ≠ b.isPlaying then a.isPlaying
  else decide (b.lastUpdated ≤ a.lastUpdated)

/-- `serializeSessions` from background.js: the stored sessions sorted by
the comparator above.  `Array.prototype.sort` with a consistent
comparator is modelled by a stable merge sort with the comparator's
`≤ 0` relation. -/
def serializeSessions (sessions : List Session) : List Session :=
  sessions.mergeSort sessionLE

/-- The loop body of the `chrome.tabs.onRemoved` listener: walk the
session entries, delete every session of the closed tab, and record
whether any deletion occurred. -/
def evictSessions : List Session → Nat → List Session × Bool
  | [], _ => ([], false)
  | s :: rest, tabId =>
      let next := evictSessions rest tabId
      if s.tabId = tabId then (next.1, true)
      else (s :: next.1, next.2)

/-- The `chrome.tabs.onRemoved` listener (the spec's `evictPage`): evict
the closed tab's sessions and call `broadcastSessions()` once if anything
was deleted.  The second component is the number of broadcasts issued. -/
def evictPage (sessions : List Session) (tabId : Nat) : List Session × Nat :=
  let evicted := evictSessions sessions tabId
  (evicted.1, if evicted.2 then 1 else 0)

/-- A `MEDIA_COMMAND` message arriving from a popup port
(`port.onMessage` → `dispatchMediaCommand`). -/
structure ObserverCommand where
  sessionId : String
  command : String
  delta : Option JSNum
  time : Option JSNum
deriving DecidableEq, Repr

/-- The addressed command `dispatchMediaCommand` sends to the owning tab
via `chrome.tabs.sendMessage`. -/
structure AddressedCommand where
  tabId : Nat
  elementId : String
  command : String
  delta : Option JSNum
  time : Option JSNum
deriving DecidableEq, Repr

/-- `dispatchMediaCommand` from background.js: a falsy or unknown
`sessionId` is dropped silently — the session map is untouched and
nothing is sent to any tab or popup (there is no error path back to the
sender).  Otherwise the command is addressed to the session's tab and
element.  The result pairs the (unchanged) session map with the message
handed to `chrome.tabs.sendMessage`, if any. -/
def dispatchMediaCommand (sessions : List Session) (message : ObserverCommand) :
    List Session × Option AddressedCommand :=
  if message.sessionId = "" then
    (sessions, none)
  else
    match sessions.find? (fun s => s.sessionId == message.sessionId) with
    | none => (sessions, none)
    | some session =>
        (sessions,
          some { tabId := session.tabId, elementId := session.elementId,
                 command := message.command, delta := message.delta,
                 time := message.time })

/-! ## Helper lemmas -/

/-- Replacing the binding that `find?` located, by its own value, leaves the
map unchanged (mutating the found element object in place does not reshape
the `trackedElements` map). -/
lemma updateTracked_find_self (l : List (String × MediaElement)) (key : String)
    (v : MediaElement) (h : l.find? (fun p => p.1 == key) = some (key, v)) :
    updateTracked l key v = l := by
  induction l with
  | nil => simp at h
  | cons hd tl ih =>
      obtain ⟨k0, v0⟩ := hd
      by_cases hk : k0 = key
      · subst hk
        rw [List.find?_cons_of_pos _ (by simp)] at h
        simp only [Option.some.injEq, Prod.mk.injEq] at h
        simp [updateTracked, h.2]
      · rw [List.find?_cons_of_neg _ (by simp [hk])] at h
        simp [updateTracked, hk, ih h]

/-! ## C1 — toggle-play under autoplay-policy rejection -/

/-- C1 counterexample: on a paused tracked element, a `toggle-play` whose
asynchronous play attempt is rejected by the autoplay policy is
acknowledged with `{ok: true}` — the inline `.catch(() => { })` swallows
the rejection, so the ack does not report failure as claimed. -/
theorem toggle_play_rejected_ack_is_success :
    (onCommandMessage
        [("media-1", { paused := true, ended := false, currentTime := 0, duration := .nan })]
        { type := MEDIA_COMMAND, elementId := "media-1", command := TOGGLE_PLAY,
          delta := none, time := none }
        (.rejected "NotAllowedError")).response = some { ok := true, error := none } ∧
    ((onCommandMessage
        [("media-1", { paused := true, ended := false, currentTime := 0, duration := .nan })]
        { type := MEDIA_COMMAND, elementId := "media-1", command := TOGGLE_PLAY,
          delta := none, time := none }
        (.rejected "NotAllowedError")).response).map Ack.ok ≠ some false := by
  exact ⟨rfl, by decide⟩

/-- C1 (amended): when a `toggle-play` command triggers an asynchronous
play attempt and the attempt is rejected by the host's autoplay policy,
the rejection is swallowed inside the handler: the acknowledgment reports
success (`{ok: true}`), exactly one play attempt is made (no retry), the
tracked element is left unchanged, and the immediate completion flush is
still triggered. -/
theorem toggle_play_rejection_swallowed (tracked : List (String × MediaElement))
    (message : CommandMessage) (element : MediaElement) (reason : String)
    (htype : message.type = MEDIA_COMMAND)
    (hcmd : message.command = TOGGLE_PLAY)
    (hfind : tracked.find? (fun p => p.1 == message.elementId) = some (message.elementId, element))
    (hidle : (element.paused || element.ended) = true) :
    onCommandMessage tracked message (.rejected reason) =
      { tracked := tracked, response := some { ok := true, error := none },
        flushed := true, playAttempts := 1 } := by
  unfold onCommandMessage
  rw [if_neg (by simp [htype]), hfind]
  dsimp only
  rw [if_pos hcmd]
  simp only [togglePlayHandler, if_pos hidle]
  rw [updateTracked_find_self tracked message.elementId element hfind]

/-- C1 witness: the amended theorem applied to a concrete paused element
whose play attempt is rejected. -/
theorem toggle_play_rejection_swallowed_witness :
    ((CommandMessage.mk MEDIA_COMMAND "media-1" TOGGLE_PLAY none none).type = MEDIA_COMMAND ∧
     (CommandMessage.mk MEDIA_COMMAND "media-1" TOGGLE_PLAY none none).command = TOGGLE_PLAY ∧
     ([("media-1", MediaElement.mk true false 0 .nan)].find?
        (fun p => p.1 == (CommandMessage.mk MEDIA_COMMAND "media-1" TOGGLE_PLAY none none).elementId)
        = some ("media-1", MediaElement.mk true false 0 .nan)) ∧
     ((MediaElement.mk true false 0 .nan).paused || (MediaElement.mk true false 0 .nan).ended) = true) ∧
    onCommandMessage [("media-1", MediaElement.mk true false 0 .nan)]
        (CommandMessage.mk MEDIA_COMMAND "media-1" TOGGLE_PLAY none none)
        (.rejected "NotAllowedError") =
      { tracked := [("media-1", MediaElement.mk true false 0 .nan)],
        response := some { ok := true, error := none },
        flushed := true, playAttempts := 1 } := by
  refine ⟨⟨rfl, rfl, rfl, rfl⟩, ?_⟩
  exact toggle_play_rejection_swallowed _ _ _ _ rfl rfl rfl rfl

/-! ## C2 — the seek clamp law -/

/-- C2: for `seek-absolute(time)` and for `seek-relative` (whose target is
`currentTime + delta`), when the element's duration is a known finite
number `D > 0` the resulting `currentTime` lies in `[0, D]` for every
finite target; when the duration is unknown (`NaN`), non-finite
(`±Infinity`) or zero, the resulting `currentTime` is `max 0 target`. -/
theorem seek_clamp_law (element : MediaElement) (t d : ℚ) :
    (∀ D : ℚ, element.duration = .fin D → 0 < D →
      0 ≤ (seekAbsoluteHandler element (.fin t)).currentTime ∧
      (seekAbsoluteHandler element (.fin t)).currentTime ≤ D ∧
      0 ≤ (seekRelativeHandler element (.fin d)).currentTime ∧
      (seekRelativeHandler element (.fin d)).currentTime ≤ D) ∧
    ((element.duration = .nan ∨ element.duration = .posInf ∨
        element.duration = .negInf ∨ element.duration = .fin 0) →
      (seekAbsoluteHandler element (.fin t)).currentTime = max 0 t ∧
      (seekRelativeHandler element (.fin d)).currentTime = max 0 (element.currentTime + d)) := by
  have hseek : ∀ (x : ℚ),
      (∀ D : ℚ, element.duration = .fin D → 0 < D →
        0 ≤ (seekTo element x).currentTime ∧ (seekTo element x).currentTime ≤ D) ∧
      ((element.duration = .nan ∨ element.duration = .posInf ∨
          element.duration = .negInf ∨ element.duration = .fin 0) →
        (seekTo element x).currentTime = max 0 x) := by
    intro x
    constructor
    · intro D hdur hD
      have hkd : knownDuration element.duration = some D := by
        rw [hdur]; simp [knownDuration, hD]
      rw [seekTo, hkd]
      exact ⟨le_min (le_max_left 0 x) hD.le, min_le_right _ _⟩
    · intro hcase
      have hnone : knownDuration element.duration = none := by
        rcases hcase with h | h | h | h <;> simp [knownDuration, h]
      rw [seekTo, hnone]
      rcases lt_or_le x 0 with hx | hx
      · rw [if_pos hx]
        exact (max_eq_left hx.le).symm
      · rw [if_neg (not_lt.mpr hx)]
        exact (max_eq_right hx).symm
  refine ⟨fun D hdur hD => ?_, fun hcase => ?_⟩
  · obtain ⟨habs1, habs2⟩ := (hseek t).1 D hdur hD
    obtain ⟨hrel1, hrel2⟩ := (hseek (element.currentTime + d)).1 D hdur hD
    exact ⟨habs1, habs2, hrel1, hrel2⟩
  · exact ⟨(hseek t).2 hcase, (hseek (element.currentTime + d)).2 hcase⟩

/-- C2 witness: on an element of duration `120`, `seek-absolute(500)` lands
inside `[0, 120]` (and so does `seek-relative(-90)` from position `10`). -/
theorem seek_clamp_law_witness :
    ((MediaElement.mk false false 10 (.fin 120)).duration = .fin 120 ∧ (0 : ℚ) < 120) ∧
    (0 ≤ (seekAbsoluteHandler (MediaElement.mk false false 10 (.fin 120)) (.fin 500)).currentTime ∧
     (seekAbsoluteHandler (MediaElement.mk false false 10 (.fin 120)) (.fin 500)).currentTime ≤ 120 ∧
     0 ≤ (seekRelativeHandler (MediaElement.mk false false 10 (.fin 120)) (.fin (-90))).currentTime ∧
     (seekRelativeHandler (MediaElement.mk false false 10 (.fin 120)) (.fin (-90))).currentTime ≤ 120) := by
  refine ⟨⟨rfl, by norm_num⟩, ?_⟩
  exact (seek_clamp_law (MediaElement.mk false false 10 (.fin 120)) 500 (-90)).1 120 rfl (by norm_num)

/-! ## C10 — non-finite seek parameters -/

/-- C10: a `seek-relative` whose `delta` is `NaN` or `±Infinity`, and a
`seek-absolute` whose `time` is `NaN` or `±Infinity`, leave the tracked
map (and hence the element's `currentTime`) unchanged, yet are
acknowledged with `{ok: true}` and still trigger the immediate completion
flush. -/
theorem nonfinite_seek_noop (tracked : List (String × MediaElement))
    (message : CommandMessage) (playOutcome : PlayOutcome)
    (element : MediaElement) (x : JSNum)
    (htype : message.type = MEDIA_COMMAND)
    (hfind : tracked.find? (fun p => p.1 == message.elementId) = some (message.elementId, element))
    (hx : x.isFinite = false)
    (hcmd : (message.command = SEEK_RELATIVE ∧ message.delta = some x) ∨
            (message.command = SEEK_ABSOLUTE ∧ message.time = some x)) :
    onCommandMessage tracked message playOutcome =
      { tracked := tracked, response := some { ok := true, error := none },
        flushed := true, playAttempts := 0 } := by
  have hrel : seekRelativeHandler element x = element := by
    cases x <;> first | rfl | simp [JSNum.isFinite] at hx
  have habs : seekAbsoluteHandler element x = element := by
    cases x <;> first | rfl | simp [JSNum.isFinite] at hx
  unfold onCommandMessage
  rw [if_neg (by simp [htype]), hfind]
  dsimp only
  rcases hcmd with ⟨hc, hparam⟩ | ⟨hc, hparam⟩
  · rw [if_neg (by rw [hc]; decide), if_pos hc, hparam]
    dsimp only [Option.getD]
    rw [hrel, updateTracked_find_self tracked message.elementId element hfind]
  · rw [if_neg (by rw [hc]; decide), if_neg (by rw [hc]; decide), if_pos hc, hparam]
    dsimp only [Option.getD]
    rw [habs, updateTracked_find_self tracked message.elementId element hfind]

/-- C10 witness: `seek-relative` with `delta = NaN` on a concrete tracked
element is a no-op on the element but acked `{ok: true}` with a flush. -/
theorem nonfinite_seek_noop_witness :
    ((CommandMessage.mk MEDIA_COMMAND "media-1" SEEK_RELATIVE (some .nan) none).type
        = MEDIA_COMMAND ∧
     ([("media-1", MediaElement.mk false false 42 (.fin 120))].find?
        (fun p =>
          p.1 == (CommandMessage.mk MEDIA_COMMAND "media-1" SEEK_RELATIVE (some .nan) none).elementId)
        = some ("media-1", MediaElement.mk false false 42 (.fin 120))) ∧
     JSNum.isFinite .nan = false) ∧
    onCommandMessage [("media-1", MediaElement.mk false false 42 (.fin 120))]
        (CommandMessage.mk MEDIA_COMMAND "media-1" SEEK_RELATIVE (some .nan) none)
        .resolved =
      { tracked := [("media-1", MediaElement.mk false false 42 (.fin 120))],
        response := some { ok := true, error := none },
        flushed := true, playAttempts := 0 } := by
  refine ⟨⟨rfl, rfl, rfl⟩, ?_⟩
  exact nonfinite_seek_noop _ _ _ _ JSNum.nan rfl rfl rfl (Or.inl ⟨rfl, rfl⟩)

/-! ## C8 — unknown element / unknown command acknowledgment -/

/-- For a found element and a command that is none of the three own
handler keys, the listener's result is decided by the `Object.prototype`
lookup. -/
lemma onCommand_prototype_dispatch (tracked : List (String × MediaElement))
    (message : CommandMessage) (playOutcome : PlayOutcome) (element : MediaElement)
    (htype : message.type = MEDIA_COMMAND)
    (hfind : tracked.find? (fun p => p.1 == message.elementId)
      = some (message.elementId, element))
    (h1 : message.command ≠ TOGGLE_PLAY) (h2 : message.command ≠ SEEK_RELATIVE)
    (h3 : message.command ≠ SEEK_ABSOLUTE) :
    onCommandMessage tracked message playOutcome =
      (if message.command ∈ objectPrototypeCallable then
        { tracked := tracked, response := some { ok := true, error := none },
          flushed := true, playAttempts := 0 }
      else if message.command ∈ objectPrototypeThrowing then
        { tracked := tracked, response := none, flushed := false, playAttempts := 0 }
      else
        { tracked := tracked, response := some { ok := false, error := some "unknown-element" },
          flushed := false, playAttempts := 0 }) := by
  unfold onCommandMessage
  rw [if_neg (by simp [htype]), hfind]
  dsimp only
  rw [if_neg h1, if_neg h2, if_neg h3]

/-- C8 counterexample: for a tracked element and `command = "toString"`
— a command name with no handler of its own — the object-literal lookup
finds the inherited `Object.prototype.toString`, so the guard is not
taken: the invoked function is harmless and the listener acks
`{ok: true}` with an immediate flush, not the claimed
`{ok: false, error: 'unknown-element'}`. -/
theorem unknown_command_inherited_ack_success :
    onCommandMessage [("media-1", MediaElement.mk true false 0 .nan)]
        (CommandMessage.mk MEDIA_COMMAND "media-1" "toString" none none) .resolved =
      { tracked := [("media-1", MediaElement.mk true false 0 .nan)],
        response := some { ok := true, error := none },
        flushed := true, playAttempts := 0 } ∧
    (onCommandMessage [("media-1", MediaElement.mk true false 0 .nan)]
        (CommandMessage.mk MEDIA_COMMAND "media-1" "toString" none none) .resolved).response
      ≠ some { ok := false, error := some "unknown-element" } := by
  exact ⟨by decide, by decide⟩

/-- C8 (amended): an unknown `elementId`, or a command name that resolves
to no handler even through the `commandHandlers` object's
`Object.prototype` chain, is acknowledged
`{ok: false, error: 'unknown-element'}` with no side effect — no element
mutation, no flush, no play attempt.  A command naming an inherited
`Object.prototype` member escapes the guard: a callable member is invoked
and acknowledged `{ok: true}` with an immediate flush (still no media
side effect), while `__proto__` and the definer methods throw, so no
response and no flush are produced. -/
theorem unknown_element_ack_amended (tracked : List (String × MediaElement))
    (message : CommandMessage) (playOutcome : PlayOutcome) (element : MediaElement)
    (htype : message.type = MEDIA_COMMAND) :
    ((tracked.find? (fun p => p.1 == message.elementId) = none ∨
        (message.command ≠ TOGGLE_PLAY ∧ message.command ≠ SEEK_RELATIVE ∧
         message.command ≠ SEEK_ABSOLUTE ∧
         message.command ∉ objectPrototypeCallable ∧
         message.command ∉ objectPrototypeThrowing)) →
      onCommandMessage tracked message playOutcome =
        { tracked := tracked, response := some { ok := false, error := some "unknown-element" },
          flushed := false, playAttempts := 0 }) ∧
    (tracked.find? (fun p => p.1 == message.elementId) = some (message.elementId, element) →
      message.command ∈ objectPrototypeCallable →
      onCommandMessage tracked message playOutcome =
        { tracked := tracked, response := some { ok := true, error := none },
          flushed := true, playAttempts := 0 }) ∧
    (tracked.find? (fun p => p.1 == message.elementId) = some (message.elementId, element) →
      message.command ∈ objectPrototypeThrowing →
      onCommandMessage tracked message playOutcome =
        { tracked := tracked, response := none, flushed := false, playAttempts := 0 }) := by
  have hcall : ∀ x ∈ objectPrototypeCallable,
      x ≠ TOGGLE_PLAY ∧ x ≠ SEEK_RELATIVE ∧ x ≠ SEEK_ABSOLUTE := by decide
  have hthrow : ∀ x ∈ objectPrototypeThrowing,
      x ≠ TOGGLE_PLAY ∧ x ≠ SEEK_RELATIVE ∧ x ≠ SEEK_ABSOLUTE ∧
        x ∉ objectPrototypeCallable := by decide
  refine ⟨?_, ?_, ?_⟩
  · intro h
    rcases h with hfind | ⟨h1, h2, h3, h4, h5⟩
    · unfold onCommandMessage
      rw [if_neg (by simp [htype]), hfind]
    · cases hfind : tracked.find? (fun p => p.1 == message.elementId) with
      | none =>
          unfold onCommandMessage
          rw [if_neg (by simp [htype]), hfind]
      | some pair =>
          obtain ⟨k, element'⟩ := pair
          have hk : k = message.elementId := by
            have := List.find?_some hfind
            simpa using this
          subst hk
          rw [onCommand_prototype_dispatch tracked message playOutcome element'
            htype hfind h1 h2 h3, if_neg h4, if_neg h5]
  · intro hfind hmem
    obtain ⟨h1, h2, h3⟩ := hcall _ hmem
    rw [onCommand_prototype_dispatch tracked message playOutcome element
      htype hfind h1 h2 h3, if_pos hmem]
  · intro hfind hmem
    obtain ⟨h1, h2, h3, h4⟩ := hthrow _ hmem
    rw [onCommand_prototype_dispatch tracked message playOutcome element
      htype hfind h1 h2 h3, if_neg h4, if_pos hmem]

/-- C8 witness: the amended theorem on a concrete state — an absent
element id gets the unknown-element ack, and on a tracked element the
inherited names "toString" and "__proto__" get the leaked success ack
and the thrown-before-response outcome respectively. -/
theorem unknown_element_ack_amended_witness :
    ((CommandMessage.mk MEDIA_COMMAND "ghost" "no-such-command" none none).type
        = MEDIA_COMMAND ∧
     (([] : List (String × MediaElement)).find?
        (fun p =>
          p.1 == (CommandMessage.mk MEDIA_COMMAND "ghost" "no-such-command" none none).elementId)
        = none)) ∧
    onCommandMessage [] (CommandMessage.mk MEDIA_COMMAND "ghost" "no-such-command" none none)
        .resolved =
      { tracked := [], response := some { ok := false, error := some "unknown-element" },
        flushed := false, playAttempts := 0 } ∧
    onCommandMessage [("media-1", MediaElement.mk true false 0 .nan)]
        (CommandMessage.mk MEDIA_COMMAND "media-1" "__proto__" none none) .resolved =
      { tracked := [("media-1", MediaElement.mk true false 0 .nan)],
        response := none, flushed := false, playAttempts := 0 } := by
  refine ⟨⟨rfl, rfl⟩, ?_, ?_⟩
  · exact (unknown_element_ack_amended [] _ .resolved
      (MediaElement.mk true false 0 .nan) rfl).1 (Or.inl rfl)
  · exact (unknown_element_ack_amended [("media-1", MediaElement.mk true false 0 .nan)]
      _ .resolved (MediaElement.mk true false 0 .nan) rfl).2.2 rfl (by decide)

/-! ## C7 — silent drop of commands for unknown sessions -/

/-- C7: routing a command whose `sessionId` is absent from the session map
performs no mutation of the map and produces no outbound message (and the
function has no error path back to the sending observer at all). -/
theorem command_drop (sessions : List Session) (message : ObserverCommand)
    (h : sessions.find? (fun s => s.sessionId == message.sessionId) = none) :
    dispatchMediaCommand sessions message = (sessions, none) := by
  unfold dispatchMediaCommand
  by_cases hid : message.sessionId = ""
  · rw [if_pos hid]
  · rw [if_neg hid, h]

/-- C7 witness: a command for a session id that is not a key of a concrete
one-session map is dropped. -/
theorem command_drop_witness :
    ([Session.mk "7:a" 7 "a" true 100].find?
        (fun s => s.sessionId == (ObserverCommand.mk "9:zz" TOGGLE_PLAY none none).sessionId)
        = none) ∧
    dispatchMediaCommand [Session.mk "7:a" 7 "a" true 100]
        (ObserverCommand.mk "9:zz" TOGGLE_PLAY none none) =
      ([Session.mk "7:a" 7 "a" true 100], none) := by
  exact ⟨rfl, command_drop _ _ rfl⟩

/-! ## C6 — page eviction -/

/-- C6: evicting a closed page deletes exactly the sessions whose `tabId`
matches, broadcasts once if any deletion occurred and zero times
otherwise (in particular zero when the page owns no sessions), and an
immediately repeated eviction of the same page broadcasts zero times. -/
theorem evict_page_spec (sessions : List Session) (tabId : Nat) :
    (evictPage sessions tabId).1 = sessions.filter (fun s => s.tabId != tabId) ∧
    (evictPage sessions tabId).2 =
      (if sessions.any (fun s => s.tabId == tabId) then 1 else 0) ∧
    (evictPage (evictPage sessions tabId).1 tabId).2 = 0 := by
  have hfst : ∀ l : List Session,
      (evictSessions l tabId).1 = l.filter (fun s => s.tabId != tabId) := by
    intro l
    induction l with
    | nil => rfl
    | cons hd tl ih =>
        by_cases hhd : hd.tabId = tabId
        · simp [evictSessions, List.filter_cons, hhd, ih]
        · simp [evictSessions, List.filter_cons, hhd, ih]
  have hsnd : ∀ l : List Session,
      (evictSessions l tabId).2 = l.any (fun s => s.tabId == tabId) := by
    intro l
    induction l with
    | nil => rfl
    | cons hd tl ih =>
        by_cases hhd : hd.tabId = tabId
        · simp [evictSessions, hhd, ih]
        · simp [evictSessions, hhd, ih]
  have hnone : (sessions.filter (fun s => s.tabId != tabId)).any
      (fun s => s.tabId == tabId) = false := by
    rw [List.any_eq_false]
    intro s hs
    have := (List.mem_filter.mp hs).2
    simp only [bne_iff_ne, ne_eq] at this
    simp [this]
  have hev : ∀ l : List Session, evictPage l tabId =
      (l.filter (fun s => s.tabId != tabId),
        if l.any (fun s => s.tabId == tabId) then 1 else 0) := by
    intro l
    simp only [evictPage]
    rw [hfst l, hsnd l]
  refine ⟨by rw [hev], by rw [hev], ?_⟩
  rw [hev sessions]
  dsimp only
  rw [hev, hnone]
  rfl

/-! ## C3 — snapshot ordering law -/

/-- The comparator relation is transitive (it is the lexicographic order
on `isPlaying` descending, then `lastUpdated` descending). -/
lemma sessionLE_trans (a b c : Session) (hab : sessionLE a b = true)
    (hbc : sessionLE b c = true) : sessionLE a c = true := by
  unfold sessionLE at hab hbc ⊢
  cases ha : a.isPlaying <;> cases hb : b.isPlaying <;> cases hc : c.isPlaying <;>
    simp_all <;> omega

/-- The comparator relation is total. -/
lemma sessionLE_total (a b : Session) : (sessionLE a b || sessionLE b a) = true := by
  unfold sessionLE
  cases ha : a.isPlaying <;> cases hb : b.isPlaying <;> simp <;> omega

/-- Elementary consequence of `sessionLE x y`: `x.isPlaying ≥ y.isPlaying`
(as Booleans), and on equal `isPlaying` the timestamps are descending. -/
lemma sessionLE_spec (x y : Session) (h : sessionLE x y = true) :
    (y.isPlaying = true → x.isPlaying = true) ∧
    (x.isPlaying = y.isPlaying → y.lastUpdated ≤ x.lastUpdated) := by
  unfold sessionLE at h
  cases hx : x.isPlaying <;> cases hy : y.isPlaying <;> rw [hx, hy] at h <;> simp_all

/-- C3: the serialized session list pushed to observers is sorted so that
for every adjacent pair `(x, y)`: `x.isPlaying ≥ y.isPlaying` (playing
sessions first), and within equal `isPlaying`, `x.lastUpdated ≥
y.lastUpdated` (most recently updated first). -/
theorem snapshot_ordering (sessions : List Session) :
    (serializeSessions sessions).Chain'
      (fun x y => (y.isPlaying = true → x.isPlaying = true) ∧
        (x.isPlaying = y.isPlaying → y.lastUpdated ≤ x.lastUpdated)) := by
  have hp : (serializeSessions sessions).Pairwise (fun a b => sessionLE a b = true) :=
    List.sorted_mergeSort (fun a b c => sessionLE_trans a b c)
      (fun a b => sessionLE_total a b) sessions
  exact (hp.imp (fun h => sessionLE_spec _ _ h)).chain'

/-! ## Agent arbitration lemmas -/

/-- `setPending` only touches the pending map. -/
lemma setPending_active (s : AgentState) (elementId : String) (b : Bool) :
    (setPending s elementId b).activeMediaId = s.activeMediaId := rfl

/-- An `update` can only leave `flushUpdate` for the active element. -/
lemma flushUpdate_mem (s : AgentState) (elementId i : String)
    (h : AgentMsg.update i ∈ flushUpdate s elementId) : s.activeMediaId = some i := by
  unfold flushUpdate at h
  split at h
  · next heq =>
      simp only [List.mem_singleton, AgentMsg.update.injEq] at h
      rw [h]
      exact heq
  · simp at h

/-- `scheduleUpdate` never changes the active id. -/
lemma scheduleUpdate_active (s : AgentState) (elementId : String) (b : Bool) :
    ((scheduleUpdate s elementId b).1).activeMediaId = s.activeMediaId := by
  unfold scheduleUpdate
  split
  · rfl
  · split <;> rfl

/-- An `update` can only leave `scheduleUpdate` for the active element. -/
lemma scheduleUpdate_mem (s : AgentState) (elementId i : String) (b : Bool)
    (h : AgentMsg.update i ∈ (scheduleUpdate s elementId b).2) :
    s.activeMediaId = some i := by
  unfold scheduleUpdate at h
  split at h
  · exact flushUpdate_mem _ _ _ h
  · split at h <;> simp at h

/-- After `setActiveElement` the new id is active. -/
lemma setActiveElement_active (s : AgentState) (newId : String) :
    ((setActiveElement s newId).1).activeMediaId = some newId := by
  unfold setActiveElement
  split
  · next h => exact h
  · dsimp only
    rw [scheduleUpdate_active]

/-- An `update` can only leave `setActiveElement` for the (new) active
element. -/
lemma setActiveElement_mem (s : AgentState) (newId i : String)
    (h : AgentMsg.update i ∈ (setActiveElement s newId).2) :
    ((setActiveElement s newId).1).activeMediaId = some i := by
  rw [setActiveElement_active]
  unfold setActiveElement at h
  by_cases heq : s.activeMediaId = some newId
  · rw [if_pos heq] at h
    simp at h
  · rw [if_neg heq] at h
    dsimp only at h
    rw [List.mem_append] at h
    rcases h with h | h
    · rcases hs : s.activeMediaId with _ | oldId <;> rw [hs] at h <;> simp at h
    · exact scheduleUpdate_mem _ _ _ _ h

/-! ## C4 — the reporting gate (single active slot) -/

/-- C4: whatever event-loop task hits the tracker, every `MEDIA_UPDATE`
it emits is for the element whose id is the (unique, single-slot)
`activeMediaId` at that instant; tracked-but-inactive elements are never
reported. -/
theorem single_active_report (s : AgentState) (e : AgentEvent) (i : String)
    (h : AgentMsg.update i ∈ (agentStep s e).2) :
    ((agentStep s e).1).activeMediaId = some i := by
  cases e with
  | register elementId playing =>
      dsimp only [agentStep, registerElement] at h ⊢
      by_cases htr : elementId ∈ s.tracked
      · rw [if_pos htr] at h
        simp at h
      · rw [if_neg htr] at h ⊢
        by_cases hcond : (s.activeMediaId.isNone || playing) = true
        · rw [if_pos hcond] at h ⊢
          exact setActiveElement_mem _ _ _ h
        · rw [if_neg hcond] at h
          simp at h
  | media elementId etype =>
      dsimp only [agentStep] at h ⊢
      by_cases hg : elementId ∈ s.tracked ∧ etype ∈ MEDIA_EVENTS
      · rw [if_pos hg] at h ⊢
        dsimp only [mediaListener] at h ⊢
        rw [List.mem_append] at h
        rw [scheduleUpdate_active]
        rcases h with h | h
        · by_cases hp : etype = "play"
          · rw [if_pos hp] at h ⊢
            exact setActiveElement_mem _ _ _ h
          · rw [if_neg hp] at h
            simp at h
        · exact scheduleUpdate_mem _ _ _ _ h
      · rw [if_neg hg] at h
        simp at h
  | frame elementId =>
      dsimp only [agentStep, frameFire] at h ⊢
      by_cases hp : s.pending elementId = true
      · rw [if_pos hp] at h ⊢
        exact flushUpdate_mem _ _ _ h
      · rw [if_neg hp] at h
        simp at h
  | domRemoved elementId =>
      dsimp only [agentStep, unregisterElement] at h ⊢
      by_cases htr : elementId ∈ s.tracked
      · rw [if_pos htr] at h
        split at h <;> simp at h
      · rw [if_neg htr] at h
        simp at h

/-- C4 witness: a `pause` event on the active element of a concrete state
emits an `update` for it, and that id is indeed the active id afterwards. -/
theorem single_active_report_witness :
    AgentMsg.update "a" ∈
      (agentStep (AgentState.mk ["a"] (fun _ => false) (some "a")) (.media "a" "pause")).2 ∧
    ((agentStep (AgentState.mk ["a"] (fun _ => false) (some "a")) (.media "a" "pause")).1).activeMediaId
      = some "a" := by
  refine ⟨?_, ?_⟩
  · decide
  · exact single_active_report _ _ _ (by decide)

/-! ## C5 — preemption order -/

/-- C5: when element `b` fires `play` while `a` is active, the step
cancels `a`'s pending deferred flush, emits `Remove(a)`, makes `b`
active, and immediately flushes `b` — the outbound stream is exactly
`[Remove(a), Update(b), Update(b)]` (the listener's post-`play` immediate
flush re-sends `b`), so `Remove(a)` strictly precedes every `Update(b)`. -/
theorem preemption_sequence (s : AgentState) (a b : String)
    (hactive : s.activeMediaId = some a) (hne : a ≠ b) (htracked : b ∈ s.tracked) :
    (agentStep s (.media b "play")).2 =
      [AgentMsg.removed a, AgentMsg.update b, AgentMsg.update b] ∧
    ((agentStep s (.media b "play")).1).activeMediaId = some b ∧
    ((agentStep s (.media b "play")).1).pending a = false := by
  have hmem : ("play" : String) ∈ MEDIA_EVENTS := by decide
  have hneq : s.activeMediaId ≠ some b := by
    rw [hactive]
    simp [hne]
  simp [agentStep, mediaListener, setActiveElement, scheduleUpdate, flushUpdate, setPending,
    htracked, hmem, hactive, hneq, hne]

/-- C5 witness: the preemption theorem applied to a concrete two-element
state where `a` is active and `b` fires `play`. -/
theorem preemption_sequence_witness :
    ((AgentState.mk ["a", "b"] (fun _ => false) (some "a")).activeMediaId = some "a" ∧
     "a" ≠ "b" ∧ "b" ∈ (AgentState.mk ["a", "b"] (fun _ => false) (some "a")).tracked) ∧
    ((agentStep (AgentState.mk ["a", "b"] (fun _ => false) (some "a")) (.media "b" "play")).2 =
        [AgentMsg.removed "a", AgentMsg.update "b", AgentMsg.update "b"] ∧
     ((agentStep (AgentState.mk ["a", "b"] (fun _ => false) (some "a"))
        (.media "b" "play")).1).activeMediaId = some "b" ∧
     ((agentStep (AgentState.mk ["a", "b"] (fun _ => false) (some "a"))
        (.media "b" "play")).1).pending "a" = false) := by
  refine ⟨⟨rfl, by decide, by decide⟩, ?_⟩
  exact preemption_sequence _ "a" "b" rfl (by decide) (by decide)

/-! ## C9 — coalescing of deferred timeupdate events -/

/-- A `timeupdate` hitting a tracked element whose deferred flush is
already pending is a no-op: same state, no output. -/
lemma agentStep_timeupdate_pending (s : AgentState) (id : String)
    (htr : id ∈ s.tracked) (hp : s.pending id = true) :
    agentStep s (.media id "timeupdate") = (s, []) := by
  have hmem : ("timeupdate" : String) ∈ MEDIA_EVENTS := by decide
  simp [agentStep, mediaListener, scheduleUpdate, htr, hmem, hp]

/-- A `timeupdate` hitting a tracked element with no pending flush only
schedules the deferred flush: no output. -/
lemma agentStep_timeupdate_fresh (s : AgentState) (id : String)
    (htr : id ∈ s.tracked) (hp : s.pending id = false) :
    agentStep s (.media id "timeupdate") = (setPending s id true, []) := by
  have hmem : ("timeupdate" : String) ∈ MEDIA_EVENTS := by decide
  simp [agentStep, mediaListener, scheduleUpdate, htr, hmem, hp]

/-- Any number of further `timeupdate` events while the flush is pending
leave the state untouched and emit nothing. -/
lemma agentRun_timeupdates_pending (s : AgentState) (id : String) (n : Nat)
    (htr : id ∈ s.tracked) (hp : s.pending id = true) :
    agentRun s (List.replicate n (.media id "timeupdate")) = (s, []) := by
  induction n with
  | zero => rfl
  | succ k ih =>
      rw [List.replicate_succ]
      simp only [agentRun]
      rw [agentStep_timeupdate_pending s id htr hp]
      simp [ih]

/-- C9: starting with no pending flush for the active element `id`, the
first of `n + 1` consecutive `timeupdate` events schedules the (single)
pending flush and emits nothing, every further `timeupdate` while it is
pending is a no-op, and the whole burst followed by the render-frame
boundary produces exactly one outbound `Update` for `id`. -/
theorem coalesced_timeupdates (s : AgentState) (id : String) (n : Nat)
    (hactive : s.activeMediaId = some id) (htracked : id ∈ s.tracked)
    (hpending : s.pending id = false) :
    (agentStep s (.media id "timeupdate")).2 = [] ∧
    ((agentStep s (.media id "timeupdate")).1).pending id = true ∧
    agentStep (agentStep s (.media id "timeupdate")).1 (.media id "timeupdate")
      = ((agentStep s (.media id "timeupdate")).1, []) ∧
    (agentRun s ((.media id "timeupdate") ::
        (List.replicate n (.media id "timeupdate") ++ [.frame id]))).2
      = [AgentMsg.update id] := by
  have hstep := agentStep_timeupdate_fresh s id htracked hpending
  have hp1 : (setPending s id true).pending id = true := by simp [setPending]
  have htr1 : id ∈ (setPending s id true).tracked := htracked
  refine ⟨by rw [hstep], by rw [hstep]; exact hp1, ?_, ?_⟩
  · rw [hstep]
    exact agentStep_timeupdate_pending _ _ htr1 hp1
  · simp only [agentRun]
    rw [hstep]
    have hrun : agentRun (setPending s id true)
        (List.replicate n (.media id "timeupdate") ++ [.frame id])
        = ((setPending (setPending s id true) id false), [AgentMsg.update id]) := by
      induction n with
      | zero =>
          simp only [List.replicate, List.nil_append, agentRun]
          have : agentStep (setPending s id true) (.frame id)
              = (setPending (setPending s id true) id false, [AgentMsg.update id]) := by
            simp [agentStep, frameFire, flushUpdate, setPending, hp1, hactive]
          rw [this]
          rfl
      | succ k ih =>
          rw [List.replicate_succ, List.cons_append]
          simp only [agentRun]
          rw [agentStep_timeupdate_pending _ _ htr1 hp1]
          simpa using ih
    rw [hrun]
    rfl

/-- C9 witness: a burst of three `timeupdate` events for the concrete
active element followed by the frame boundary yields exactly one
`Update`. -/
theorem coalesced_timeupdates_witness :
    ((AgentState.mk ["a"] (fun _ => false) (some "a")).activeMediaId = some "a" ∧
     "a" ∈ (AgentState.mk ["a"] (fun _ => false) (some "a")).tracked ∧
     (AgentState.mk ["a"] (fun _ => false) (some "a")).pending "a" = false) ∧
    (agentRun (AgentState.mk ["a"] (fun _ => false) (some "a"))
        ((.media "a" "timeupdate") ::
          (List.replicate 2 (.media "a" "timeupdate") ++ [.frame "a"]))).2
      = [AgentMsg.update "a"] := by
  refine ⟨⟨rfl, by decide, rfl⟩, ?_⟩
  exact (coalesced_timeupdates (AgentState.mk ["a"] (fun _ => false) (some "a"))
    "a" 2 rfl (by decide) rfl).2.2.2
